import Mathlib

/-!
Verification of the DotWriter specification against a shallow embedding of
the repository's C++ sources.

Conventions of the embedding:
* `std::string` is Lean `String`; the `std::set<std::string>` of registered
  identifiers is kept as the list of inserted elements (only membership is
  ever consulted by the code).
* The retry loops in `IdManager` have no termination bound in the source
  (spec section 9 flags this); the embedding gives each loop explicit fuel
  and returns `none` when the fuel runs out.  All theorems about the loops
  are conditioned on a `some` result, i.e. on the run that the C++ code
  performs when it terminates.
* `std::ostream` output is modelled by returning the written `String`;
  printing routines that mutate the object being printed (label injection)
  return the updated object next to the output.
* Indentation arguments (`tabDepth`, `linePrefix`, `_tabCharacter`) only
  produce whitespace; the claims are stated up to whitespace, so the
  embedding drops them.
-/

namespace DotWriter

/-- State of the identifier authority, class IdManager
(src/unnamed/part_006, src/IdManager.h): the three monotone counters
`_nextNodeIdNum`, `_nextSubgraphIdNum`, `_nextCustomIdNum` and the set
`_existingIds` of registered identifiers. -/
structure IdManager where
  nextNodeIdNum : Nat
  nextSubgraphIdNum : Nat
  nextCustomIdNum : Nat
  existingIds : List String
deriving DecidableEq, Repr

/-- The authority owned by a freshly constructed document root
(IdManager constructor, src/IdManager.h: all counters start at 0). -/
def IdManager.init : IdManager := ⟨0, 0, 0, []⟩

/-- Embeds IdManager::RegisterId (src/IdManager.h lines 45-51):
`_existingIds.insert(id)`; `success` is whether the insertion took place,
and the (unique) stored string equal to `id` is returned. -/
def RegisterId (m : IdManager) (id : String) : Bool × String × IdManager :=
  if id ∈ m.existingIds then (false, id, m)
  else (true, id, { m with existingIds := id :: m.existingIds })

/-- Embeds IdManager::GetNodeId (src/unnamed/part_006 lines 7-22):
synthesize "Node<n>" from the node counter (post-incremented), attempt
registration, and recurse on collision. -/
def GetNodeId : Nat → IdManager → Option (String × IdManager)
  | 0, _ => none
  | fuel+1, m =>
    let idStr := "Node" ++ Nat.repr m.nextNodeIdNum
    let m1 := { m with nextNodeIdNum := m.nextNodeIdNum + 1 }
    match RegisterId m1 idStr with
    | (true, val, m2) => some (val, m2)
    | (false, _, m2) => GetNodeId fuel m2

/-- Embeds IdManager::GetSubgraphId (src/unnamed/part_006 lines 24-38):
same retry scheme with the "Graph" stem and the subgraph counter. -/
def GetSubgraphId : Nat → IdManager → Option (String × IdManager)
  | 0, _ => none
  | fuel+1, m =>
    let idStr := "Graph" ++ Nat.repr m.nextSubgraphIdNum
    let m1 := { m with nextSubgraphIdNum := m.nextSubgraphIdNum + 1 }
    match RegisterId m1 idStr with
    | (true, val, m2) => some (val, m2)
    | (false, _, m2) => GetSubgraphId fuel m2

/-- Embeds IdManager::GetClusterId (src/unnamed/part_006 lines 41-56):
the "cluster_" stem; note that the source draws the number from the
subgraph counter (`GetNextSubgraphIdNum`). -/
def GetClusterId : Nat → IdManager → Option (String × IdManager)
  | 0, _ => none
  | fuel+1, m =>
    let idStr := "cluster_" ++ Nat.repr m.nextSubgraphIdNum
    let m1 := { m with nextSubgraphIdNum := m.nextSubgraphIdNum + 1 }
    match RegisterId m1 idStr with
    | (true, val, m2) => some (val, m2)
    | (false, _, m2) => GetClusterId fuel m2

/-- Embeds the `while (!success)` loop of IdManager::ValidateCustomId
(src/unnamed/part_006 lines 58-80).  `oss` is the `std::ostringstream`
buffer; the source calls `oss.clear()` between attempts, which resets the
stream's error flags but does NOT discard its contents, so each attempt
appends `customId` and the next value of the shared custom counter to the
text of the previous attempt. -/
def ValidateCustomIdLoop : Nat → String → String → IdManager →
    Option (String × IdManager)
  | 0, _, _, _ => none
  | fuel+1, customId, oss, m =>
    let oss1 := oss ++ customId ++ Nat.repr m.nextCustomIdNum
    let m1 := { m with nextCustomIdNum := m.nextCustomIdNum + 1 }
    match RegisterId m1 oss1 with
    | (true, val, m2) => some (val, m2)
    | (false, _, m2) => ValidateCustomIdLoop fuel customId oss1 m2

/-- Embeds IdManager::ValidateCustomId (src/unnamed/part_006 lines 58-80):
register the candidate verbatim if possible, otherwise enter the retry
loop with an (initially empty) ostringstream buffer. -/
def ValidateCustomId (fuel : Nat) (m : IdManager) (customId : String) :
    Option (String × IdManager) :=
  match RegisterId m customId with
  | (true, val, m1) => some (val, m1)
  | (false, _, m1) => ValidateCustomIdLoop fuel customId "" m1

/-- Embeds the guard `customId.substr(0,7).compare("cluster") != 0` of
IdManager::ValidateCustomClusterId: the first seven characters are exactly
"cluster" iff "cluster" is a prefix of the string.  Stated on the
character lists to keep it within the provable list API. -/
def hasClusterStem (s : String) : Bool :=
  "cluster".data.isPrefixOf s.data

/-- Embeds IdManager::ValidateCustomClusterId (src/unnamed/part_006 lines
82-89): prepend "cluster" when the stem is absent, then delegate to
ValidateCustomId. -/
def ValidateCustomClusterId (fuel : Nat) (m : IdManager) (customId : String) :
    Option (String × IdManager) :=
  let customId1 := if hasClusterStem customId then customId
                   else "cluster" ++ customId
  ValidateCustomId fuel m customId1

/-- One identifier-producing operation on a document, as offered by the
Graph factory methods (src/lib/DotWriter.h): an auto-id node, an auto-id
subgraph, an auto-id cluster, a custom id, or a custom cluster id. -/
inductive IdOp where
  | addNode : IdOp
  | addSubgraph : IdOp
  | addCluster : IdOp
  | customId (s : String) : IdOp
  | customClusterId (s : String) : IdOp
deriving DecidableEq, Repr

/-- Dispatch one operation to the corresponding IdManager entry point. -/
def runOp (fuel : Nat) (m : IdManager) : IdOp → Option (String × IdManager)
  | .addNode => GetNodeId fuel m
  | .addSubgraph => GetSubgraphId fuel m
  | .addCluster => GetClusterId fuel m
  | .customId s => ValidateCustomId fuel m s
  | .customClusterId s => ValidateCustomClusterId fuel m s

/-- Run a sequence of identifier-producing operations on one shared
authority, collecting the returned identifiers in order. -/
def runOps (fuel : Nat) (m : IdManager) : List IdOp →
    Option (List String × IdManager)
  | [] => some ([], m)
  | op :: ops =>
    match runOp fuel m op with
    | none => none
    | some (id, m1) =>
      match runOps fuel m1 ops with
      | none => none
      | some (ids, m2) => some (id :: ids, m2)

/-! Registration-freshness lemmas shared by several claims.  Every entry
point only ever hands out a string at the moment a `RegisterId` call for
it succeeds, and the set of registered identifiers only grows. -/

theorem GetNodeId_fresh_mem_mono {fuel : Nat} : ∀ {m m' : IdManager}
    {id : String}, GetNodeId fuel m = some (id, m') →
    id ∉ m.existingIds ∧ id ∈ m'.existingIds ∧
      ∀ x ∈ m.existingIds, x ∈ m'.existingIds := by
  induction fuel with
  | zero => intro m m' id h; simp [GetNodeId] at h
  | succ fuel ih =>
    intro m m' id h
    rw [GetNodeId] at h
    by_cases hmem : ("Node" ++ Nat.repr m.nextNodeIdNum) ∈ m.existingIds
    · simp only [RegisterId, if_pos hmem] at h
      have h3 := ih h
      exact h3
    · simp only [RegisterId, if_neg hmem] at h
      injection h with h1
      injection h1 with hid hm
      subst hid
      subst hm
      refine ⟨hmem, List.mem_cons_self _ _, ?_⟩
      intro x hx
      exact List.mem_cons_of_mem _ hx

theorem GetSubgraphId_fresh_mem_mono {fuel : Nat} : ∀ {m m' : IdManager}
    {id : String}, GetSubgraphId fuel m = some (id, m') →
    id ∉ m.existingIds ∧ id ∈ m'.existingIds ∧
      ∀ x ∈ m.existingIds, x ∈ m'.existingIds := by
  induction fuel with
  | zero => intro m m' id h; simp [GetSubgraphId] at h
  | succ fuel ih =>
    intro m m' id h
    rw [GetSubgraphId] at h
    by_cases hmem : ("Graph" ++ Nat.repr m.nextSubgraphIdNum) ∈ m.existingIds
    · simp only [RegisterId, if_pos hmem] at h
      have h3 := ih h
      exact h3
    · simp only [RegisterId, if_neg hmem] at h
      injection h with h1
      injection h1 with hid hm
      subst hid
      subst hm
      refine ⟨hmem, List.mem_cons_self _ _, ?_⟩
      intro x hx
      exact List.mem_cons_of_mem _ hx

theorem GetClusterId_fresh_mem_mono {fuel : Nat} : ∀ {m m' : IdManager}
    {id : String}, GetClusterId fuel m = some (id, m') →
    id ∉ m.existingIds ∧ id ∈ m'.existingIds ∧
      ∀ x ∈ m.existingIds, x ∈ m'.existingIds := by
  induction fuel with
  | zero => intro m m' id h; simp [GetClusterId] at h
  | succ fuel ih =>
    intro m m' id h
    rw [GetClusterId] at h
    by_cases hmem : ("cluster_" ++ Nat.repr m.nextSubgraphIdNum) ∈ m.existingIds
    · simp only [RegisterId, if_pos hmem] at h
      have h3 := ih h
      exact h3
    · simp only [RegisterId, if_neg hmem] at h
      injection h with h1
      injection h1 with hid hm
      subst hid
      subst hm
      refine ⟨hmem, List.mem_cons_self _ _, ?_⟩
      intro x hx
      exact List.mem_cons_of_mem _ hx

theorem ValidateCustomIdLoop_fresh_mem_mono {fuel : Nat} {c : String} :
    ∀ {m m' : IdManager} {oss id : String},
    ValidateCustomIdLoop fuel c oss m = some (id, m') →
    id ∉ m.existingIds ∧ id ∈ m'.existingIds ∧
      ∀ x ∈ m.existingIds, x ∈ m'.existingIds := by
  induction fuel with
  | zero => intro m m' oss id h; simp [ValidateCustomIdLoop] at h
  | succ fuel ih =>
    intro m m' oss id h
    rw [ValidateCustomIdLoop] at h
    by_cases hmem : (oss ++ c ++ Nat.repr m.nextCustomIdNum) ∈ m.existingIds
    · simp only [RegisterId, if_pos hmem] at h
      have h3 := ih h
      exact h3
    · simp only [RegisterId, if_neg hmem] at h
      injection h with h1
      injection h1 with hid hm
      subst hid
      subst hm
      refine ⟨hmem, List.mem_cons_self _ _, ?_⟩
      intro x hx
      exact List.mem_cons_of_mem _ hx

theorem ValidateCustomId_fresh_mem_mono {fuel : Nat} {m m' : IdManager}
    {c id : String} (h : ValidateCustomId fuel m c = some (id, m')) :
    id ∉ m.existingIds ∧ id ∈ m'.existingIds ∧
      ∀ x ∈ m.existingIds, x ∈ m'.existingIds := by
  rw [ValidateCustomId] at h
  by_cases hmem : c ∈ m.existingIds
  · simp only [RegisterId, if_pos hmem] at h
    exact ValidateCustomIdLoop_fresh_mem_mono h
  · simp only [RegisterId, if_neg hmem] at h
    injection h with h1
    injection h1 with hid hm
    subst hid
    subst hm
    refine ⟨hmem, List.mem_cons_self _ _, ?_⟩
    intro x hx
    exact List.mem_cons_of_mem _ hx

theorem ValidateCustomClusterId_fresh_mem_mono {fuel : Nat} {m m' : IdManager}
    {c id : String} (h : ValidateCustomClusterId fuel m c = some (id, m')) :
    id ∉ m.existingIds ∧ id ∈ m'.existingIds ∧
      ∀ x ∈ m.existingIds, x ∈ m'.existingIds := by
  unfold ValidateCustomClusterId at h
  exact ValidateCustomId_fresh_mem_mono h

theorem runOp_fresh_mem_mono {fuel : Nat} {m m' : IdManager} {op : IdOp}
    {id : String} (h : runOp fuel m op = some (id, m')) :
    id ∉ m.existingIds ∧ id ∈ m'.existingIds ∧
      ∀ x ∈ m.existingIds, x ∈ m'.existingIds := by
  cases op with
  | addNode => exact GetNodeId_fresh_mem_mono h
  | addSubgraph => exact GetSubgraphId_fresh_mem_mono h
  | addCluster => exact GetClusterId_fresh_mem_mono h
  | customId s => exact ValidateCustomId_fresh_mem_mono h
  | customClusterId s => exact ValidateCustomClusterId_fresh_mem_mono h

theorem runOps_fresh_mono {fuel : Nat} {ops : List IdOp} :
    ∀ {m m' : IdManager} {ids : List String},
    runOps fuel m ops = some (ids, m') →
    (∀ x ∈ ids, x ∉ m.existingIds) ∧
      (∀ x ∈ m.existingIds, x ∈ m'.existingIds) ∧
      (∀ x ∈ ids, x ∈ m'.existingIds) := by
  induction ops with
  | nil =>
    intro m m' ids h
    simp only [runOps, Option.some.injEq, Prod.mk.injEq] at h
    obtain ⟨h1, h2⟩ := h
    subst h1
    subst h2
    exact ⟨by simp, fun x hx => hx, by simp⟩
  | cons op ops ih =>
    intro m m' ids h
    rw [runOps] at h
    cases hop : runOp fuel m op with
    | none => rw [hop] at h; simp at h
    | some p =>
      obtain ⟨id, m1⟩ := p
      rw [hop] at h
      dsimp only at h
      cases hops : runOps fuel m1 ops with
      | none => rw [hops] at h; simp at h
      | some q =>
        obtain ⟨ids1, m2⟩ := q
        rw [hops] at h
        simp only [Option.some.injEq, Prod.mk.injEq] at h
        obtain ⟨h1, h2⟩ := h
        subst h1
        subst h2
        obtain ⟨f1, f2, f3⟩ := runOp_fresh_mem_mono hop
        obtain ⟨g1, g2, g3⟩ := ih hops
        refine ⟨?_, ?_, ?_⟩
        · intro x hx
          rcases List.mem_cons.mp hx with h | h
          · subst h; exact f1
          · intro hmem
            exact g1 x h (f3 x hmem)
        · intro x hx
          exact g2 x (f3 x hx)
        · intro x hx
          rcases List.mem_cons.mp hx with h | h
          · subst h; exact g2 _ f2
          · exact g3 x h

theorem runOps_pairwise {fuel : Nat} {ops : List IdOp} :
    ∀ {m m' : IdManager} {ids : List String},
    runOps fuel m ops = some (ids, m') → ids.Pairwise (· ≠ ·) := by
  induction ops with
  | nil =>
    intro m m' ids h
    simp only [runOps, Option.some.injEq, Prod.mk.injEq] at h
    obtain ⟨h1, h2⟩ := h
    subst h1
    exact List.Pairwise.nil
  | cons op ops ih =>
    intro m m' ids h
    rw [runOps] at h
    cases hop : runOp fuel m op with
    | none => rw [hop] at h; simp at h
    | some p =>
      obtain ⟨id, m1⟩ := p
      rw [hop] at h
      dsimp only at h
      cases hops : runOps fuel m1 ops with
      | none => rw [hops] at h; simp at h
      | some q =>
        obtain ⟨ids1, m2⟩ := q
        rw [hops] at h
        simp only [Option.some.injEq, Prod.mk.injEq] at h
        obtain ⟨h1, h2⟩ := h
        subst h1
        obtain ⟨f1, f2, f3⟩ := runOp_fresh_mem_mono hop
        obtain ⟨g1, g2, g3⟩ := runOps_fresh_mono hops
        refine List.Pairwise.cons ?_ (ih hops)
        intro x hx heq
        exact g1 x hx (heq ▸ f2)

/-- C1: for every sequence of addNode/addSubgraph/addCluster and custom-id
operations performed on one document through its shared identifier
authority, the identifiers returned by the operations that complete are
pairwise distinct; in particular an auto-generated candidate that collides
with an earlier hand-picked custom id of the same spelling is never
returned a second time. -/
theorem returned_ids_pairwise_distinct (fuel : Nat) (ops : List IdOp)
    (ids : List String) (m' : IdManager)
    (h : runOps fuel IdManager.init ops = some (ids, m')) :
    ids.Pairwise (· ≠ ·) :=
  runOps_pairwise h

/-- Witness for C1: the spec's own scenario — the custom id "Node0" is
taken first, after which the auto-generator skips to "Node1". -/
theorem returned_ids_pairwise_distinct_witness :
    (["Node0", "Node1"] : List String).Pairwise (· ≠ ·) :=
  returned_ids_pairwise_distinct 9 [IdOp.customId "Node0", IdOp.addNode]
    ["Node0", "Node1"] ⟨2, 0, 0, ["Node1", "Node0"]⟩ (by decide)

/-- C7 (code bug): with "foo" and "foo0" already registered, validating the
custom id "foo" is documented (and claimed) to retry with the bare
candidate plus the next counter value, i.e. "foo1"; the code instead
returns "foo0foo1", because `oss.clear()` between loop iterations resets
the ostringstream's error flags without discarding its text, so the second
attempt is appended to the first.  This theorem evaluates the embedded
loop at that failing input. -/
theorem validateCustomId_accumulates_buffer :
    ValidateCustomId 9 ⟨0, 0, 0, ["foo", "foo0"]⟩ "foo"
      = some ("foo0foo1", ⟨0, 0, 2, ["foo0foo1", "foo", "foo0"]⟩) ∧
    "foo0foo1" ≠ "foo1" := by
  exact ⟨by decide, by decide⟩

theorem hasClusterStem_decomp {s : String} (h : hasClusterStem s = true) :
    ∃ u, s = "cluster" ++ u := by
  unfold hasClusterStem at h
  obtain ⟨u, hu⟩ := List.isPrefixOf_iff_prefix.mp h
  refine ⟨⟨u⟩, ?_⟩
  have hdata : s.data = ("cluster" ++ String.mk u).data := by
    rw [String.data_append, hu]
  cases s
  cases hdata
  rfl

theorem GetClusterId_stem {fuel : Nat} : ∀ {m m' : IdManager} {id : String},
    GetClusterId fuel m = some (id, m') → ∃ t, id = "cluster_" ++ t := by
  induction fuel with
  | zero => intro m m' id h; simp [GetClusterId] at h
  | succ fuel ih =>
    intro m m' id h
    rw [GetClusterId] at h
    by_cases hmem : ("cluster_" ++ Nat.repr m.nextSubgraphIdNum) ∈ m.existingIds
    · simp only [RegisterId, if_pos hmem] at h
      have h3 := ih h
      exact h3
    · simp only [RegisterId, if_neg hmem] at h
      injection h with h1
      injection h1 with hid hm
      exact ⟨Nat.repr m.nextSubgraphIdNum, hid.symm⟩

theorem ValidateCustomIdLoop_app {fuel : Nat} {c : String} :
    ∀ {m m' : IdManager} {oss id : String},
    ValidateCustomIdLoop fuel c oss m = some (id, m') →
    ∃ t, id = oss ++ c ++ t := by
  induction fuel with
  | zero => intro m m' oss id h; simp [ValidateCustomIdLoop] at h
  | succ fuel ih =>
    intro m m' oss id h
    rw [ValidateCustomIdLoop] at h
    by_cases hmem : (oss ++ c ++ Nat.repr m.nextCustomIdNum) ∈ m.existingIds
    · simp only [RegisterId, if_pos hmem] at h
      obtain ⟨t, ht⟩ := ih h
      refine ⟨Nat.repr m.nextCustomIdNum ++ c ++ t, ?_⟩
      rw [ht]
      simp only [String.append_assoc]
    · simp only [RegisterId, if_neg hmem] at h
      injection h with h1
      injection h1 with hid hm
      exact ⟨Nat.repr m.nextCustomIdNum, hid.symm⟩

theorem ValidateCustomId_app {fuel : Nat} {m m' : IdManager} {c id : String}
    (h : ValidateCustomId fuel m c = some (id, m')) : ∃ t, id = c ++ t := by
  rw [ValidateCustomId] at h
  by_cases hmem : c ∈ m.existingIds
  · simp only [RegisterId, if_pos hmem] at h
    obtain ⟨t, ht⟩ := ValidateCustomIdLoop_app h
    refine ⟨t, ?_⟩
    rw [ht]
    simp
  · simp only [RegisterId, if_neg hmem] at h
    injection h with h1
    injection h1 with hid hm
    exact ⟨"", by rw [← hid]; simp⟩


/-! The attribute value model.  The snapshot keeps several generations of
Attribute.h; each constructor below is embedded from the generation the
claims cite. -/

/-- Embeds enum EdgeStyle (src/Enums.h lines 56-73), one representative
generated enum: every enum in Enums.h opens with the DEFAULT sentinel,
documented as "Do not explicitly specify in the DOT file".  The trailing
COUNT bounds marker is omitted; it is not a settable value. -/
inductive EdgeStyle where
  | DEFAULT : EdgeStyle
  | DASHED : EdgeStyle
  | DOTTED : EdgeStyle
  | SOLID : EdgeStyle
  | INVIS : EdgeStyle
  | BOLD : EdgeStyle
  | TAPERED : EdgeStyle
deriving DecidableEq, Repr

/-- Modelled from the spec: EdgeStyle::ToString reads the generated
strings[] lookup table, whose definition (the enum .cpp file) is not
under src/; per spec section 4.2 it returns the canonical DOT spelling of
the value.  The DEFAULT entry is never consulted by EnumAttribute::Print
because of default suppression. -/
def EdgeStyle.ToString : EdgeStyle → String
  | .DEFAULT => "default"
  | .DASHED => "dashed"
  | .DOTTED => "dotted"
  | .SOLID => "solid"
  | .INVIS => "invis"
  | .BOLD => "bold"
  | .TAPERED => "tapered"

/-- The attribute shapes the claims exercise.
`custom` embeds CustomAttribute (src/lib/Attribute.h lines 75-105): the
name and value strings are stored verbatim by the constructor.
`simpleStr` embeds SimpleAttribute<std::string> (src/lib/Attribute.h):
the stored value, always a string here; the name stands for
AttributeType::ToString(_type).
`enumStyle` embeds EnumAttribute<EdgeStyle::e, EdgeStyle>
(src/unnamed/part_004 lines 88-107) at the representative enum. -/
inductive Attribute where
  | custom (name : String) (value : String) : Attribute
  | simpleStr (name : String) (value : String) : Attribute
  | enumStyle (name : String) (value : EdgeStyle) : Attribute
deriving DecidableEq, Repr

/-- Per-attribute serialization.
For `custom` and `simpleStr` this is Attribute::Print of
src/lib/Attribute.h lines 33-48 (PrintName, then ="..." around PrintValue,
which streams the stored string verbatim).
For `enumStyle` it is EnumAttribute::Print of src/unnamed/part_004 lines
103-107: nothing at all when the value is the DEFAULT sentinel, otherwise
GetName()="ToString(value)". -/
def Attribute.Print : Attribute → String
  | .custom name value => name ++ "=\"" ++ value ++ "\""
  | .simpleStr name value => name ++ "=\"" ++ value ++ "\""
  | .enumStyle name value =>
    if value ≠ EdgeStyle.DEFAULT then name ++ "=\"" ++ value.ToString ++ "\""
    else ""

/-- An attribute collection: the insertion-ordered `std::vector<Attribute*>`
`_attributes` of class AttributeSet (src/AttributeSet.h lines 32-34). -/
abbrev AttributeSet := List Attribute

/-- Modelled from the spec: AttributeSet::Empty — the newest-generation
body is not under src/, only its callers are — reports whether the
attribute vector is empty. -/
def AttributeSet.Empty (s : AttributeSet) : Bool := s.isEmpty

/-- Modelled from the spec: AttributeSet::Print — the newest-generation
body is not under src/ — prints the entries in insertion order separated
by commas, per the a_list grammar of spec section 6; this matches the
in-src middle-generation AttributeSet::ToString (src/AttributeSet.h lines
51-60), which emits each attribute and a "," after every entry except the
last.  The linePrefix parameter of the two-argument overload only adds
whitespace and is dropped. -/
def AttributeSet.Print : AttributeSet → String
  | [] => ""
  | [a] => a.Print
  | a :: rest => a.Print ++ "," ++ AttributeSet.Print rest

/-- AttributeSet::AddCustomAttribute (src/AttributeSet.h lines 47-49):
wrap the two strings in a CustomAttribute and append it to the vector.
No sanitization happens on this path. -/
def AddCustomAttribute (s : AttributeSet) (name value : String) :
    AttributeSet :=
  s ++ [Attribute.custom name value]

/-- ReplaceAll (src/unnamed/part_006 Util segment lines 97-106): scan left
to right and replace each occurrence of the (non-empty) pattern, resuming
immediately after the inserted replacement so that inserted text is never
rescanned. -/
def replaceAllAux (p : Char) (patt toStr : List Char) : List Char → List Char
  | [] => []
  | c :: rest =>
    if (p :: patt).isPrefixOf (c :: rest) then
      toStr ++ replaceAllAux p patt toStr (rest.drop patt.length)
    else c :: replaceAllAux p patt toStr rest
termination_by l => l.length
decreasing_by
  · simp only [List.length_drop, List.length_cons]
    omega
  · simp only [List.length_cons]
    omega

/-- ReplaceAll entry point: an empty pattern returns the string unchanged
(the `from.empty()` guard of the source). -/
def ReplaceAll (str fromStr toStr : String) : String :=
  match fromStr.data with
  | [] => str
  | p :: patt => ⟨replaceAllAux p patt toStr.data str.data⟩

/-- SanitizeString (src/unnamed/part_006 lines 108-124): escape each
double quote as backslash-quote, then each newline as the two characters
backslash-n. -/
def SanitizeString (label : String) : String :=
  ReplaceAll (ReplaceAll label "\"" "\\\"") "\n" "\\n"

/-- GraphAttributeSet::SetURL (src/AttributeSet.h lines 160-170), the
representative sanitizing string setter: the value is passed through
SanitizeString at capture time and then stored in a
SimpleAttribute<std::string>.  The attribute name stands for
AttributeType::ToString(URL). -/
def SetURL (s : AttributeSet) (val : String) : AttributeSet :=
  s ++ [Attribute.simpleStr "URL" (SanitizeString val)]

/-- Counterexample to C4 as stated: a raw string captured into a Custom
attribute for a quoted value is NOT escaped — the constructor stores it
verbatim and printing streams it verbatim — so the embedded double quote
of "a\"b" survives unescaped in the output, where the claim requires the
escaped form. -/
theorem customAttribute_never_escaped :
    AttributeSet.Print (AddCustomAttribute [] "note" "a\"b")
      = "note=\"a\"b\"" ∧
    AttributeSet.Print (AddCustomAttribute [] "note" "a\"b")
      ≠ "note=\"a\\\"b\"" := by
  exact ⟨by decide, by decide⟩

/-- C4 (amended): strings captured through the sanitizing string-attribute
setters (represented by SetURL) have embedded quotes replaced by
backslash-quote and newlines by backslash-n exactly once, at capture time;
printing streams the stored value verbatim, so the printed fragment shows
the singly-escaped form no matter how many times the collection is
printed, while a string captured by AddCustomAttribute is stored and
printed entirely verbatim with no escaping at all. -/
theorem escaping_applied_once_at_capture (v name value : String) :
    AttributeSet.Print (SetURL [] v) = "URL=\"" ++ SanitizeString v ++ "\"" ∧
    AttributeSet.Print (AddCustomAttribute [] name value)
      = name ++ "=\"" ++ value ++ "\"" ∧
    SanitizeString "He said \"hi\"\n" = "He said \\\"hi\\\"\\n" := by
  refine ⟨?_, ?_, ?_⟩
  · simp [SetURL, AttributeSet.Print, Attribute.Print, String.append_assoc]
  · simp [AddCustomAttribute, AttributeSet.Print, Attribute.Print,
      String.append_assoc]
  · simp [SanitizeString, ReplaceAll, replaceAllAux]

/-- Witness for C4 (amended): the spec's own vector through the sanitizing
setter, and a verbatim custom attribute. -/
theorem escaping_applied_once_at_capture_witness :
    AttributeSet.Print (SetURL [] "He said \"hi\"\n")
      = "URL=\"" ++ SanitizeString "He said \"hi\"\n" ++ "\"" ∧
    AttributeSet.Print (AddCustomAttribute [] "label" "x")
      = "label" ++ "=\"" ++ "x" ++ "\"" ∧
    SanitizeString "He said \"hi\"\n" = "He said \\\"hi\\\"\\n" :=
  ⟨(escaping_applied_once_at_capture "He said \"hi\"\n" "label" "x").1,
   (escaping_applied_once_at_capture "He said \"hi\"\n" "label" "x").2.1,
   (escaping_applied_once_at_capture "He said \"hi\"\n" "label" "x").2.2⟩

/-- C6: an EnumValue attribute whose stored value is the enum's DEFAULT
sentinel contributes nothing to the printed attribute list, and any
non-default value prints as name="canonical(value)" — both for the single
attribute fragment and inside an attribute collection. -/
theorem enum_default_suppressed (name : String) (v : EdgeStyle) :
    (v = EdgeStyle.DEFAULT →
      Attribute.Print (Attribute.enumStyle name v) = "" ∧
      AttributeSet.Print [Attribute.enumStyle name v] = "") ∧
    (v ≠ EdgeStyle.DEFAULT →
      Attribute.Print (Attribute.enumStyle name v)
        = name ++ "=\"" ++ v.ToString ++ "\"" ∧
      AttributeSet.Print [Attribute.enumStyle name v]
        = name ++ "=\"" ++ v.ToString ++ "\"") := by
  constructor
  · intro h
    subst h
    exact ⟨by simp [Attribute.Print], by simp [AttributeSet.Print, Attribute.Print]⟩
  · intro h
    refine ⟨by simp [Attribute.Print, h], ?_⟩
    simp [AttributeSet.Print, Attribute.Print, h]

/-- Witness for C6: the DEFAULT sentinel of EdgeStyle is suppressed and
the non-default member DASHED is printed. -/
theorem enum_default_suppressed_witness :
    AttributeSet.Print [Attribute.enumStyle "style" EdgeStyle.DEFAULT] = "" ∧
    AttributeSet.Print [Attribute.enumStyle "style" EdgeStyle.DASHED]
      = "style" ++ "=\"" ++ EdgeStyle.ToString EdgeStyle.DASHED ++ "\"" :=
  ⟨((enum_default_suppressed "style" EdgeStyle.DEFAULT).1 rfl).2,
   ((enum_default_suppressed "style" EdgeStyle.DASHED).2 (by decide)).2⟩

/-! The graph model.  The snapshot's newest generation: class Graph
(src/unnamed/part_007), Node (src/unnamed/part_005), Edge
(src/unnamed/part_008 lines 60-113), with the printing routines the
claims cite: Graph::PrintNECS (src/lib/DotWriter.h lines 150-191),
RootGraph::Print (src/lib/RootGraph.cpp lines 30-43), Subgraph::Print
(src/lib/Subgraph.cpp lines 5-21), Cluster::Print (src/lib/Cluster.cpp
lines 5-24), Node::ToString (src/AttributeSet.cpp lines 12-37) and
Edge::Print (src/lib/Edge.cpp lines 13-23). -/

/-- Node (src/unnamed/part_005): identifier (held by the authority),
label, and the node's attribute collection. -/
structure Node where
  id : String
  label : String
  attributes : AttributeSet
deriving DecidableEq, Repr

/-- Edge (src/unnamed/part_008 lines 60-113): non-owning references to
source and destination — modelled by their identifiers, which is all that
Edge::Print reads from them — plus a label and an attribute collection. -/
structure Edge where
  srcId : String
  dstId : String
  label : String
  attributes : AttributeSet
deriving DecidableEq, Repr

/-- Node::SetLabel (src/unnamed/part_005): plain field assignment; the
attribute collection is not touched. -/
def Node.SetLabel (n : Node) (l : String) : Node := { n with label := l }

/-- Edge::SetLabel (src/unnamed/part_008 lines 93-95): plain field
assignment. -/
def Edge.SetLabel (e : Edge) (l : String) : Edge := { e with label := l }

/-- A graph scope (class Graph, src/unnamed/part_007 lines 28-160):
directedness flag (fixed at the document root and inherited), identifier,
label, the four insertion-ordered owned sequences, the scope's own
attribute set (the _attributes member of RootGraph, Subgraph and
Cluster), and the default node/edge attribute sets.  Whether a child
graph is a Subgraph or a Cluster is recorded by which owned sequence it
sits in, which is also what selects its Print routine. -/
inductive Graph where
  | mk (isDigraph : Bool) (id : String) (label : String)
      (nodes : List Node) (edges : List Edge)
      (subgraphs : List Graph) (clusters : List Graph)
      (attributes : AttributeSet)
      (defaultNodeAttributes : AttributeSet)
      (defaultEdgeAttributes : AttributeSet) : Graph

def Graph.isDigraph : Graph → Bool
  | .mk d _ _ _ _ _ _ _ _ _ => d

def Graph.id : Graph → String
  | .mk _ i _ _ _ _ _ _ _ _ => i

def Graph.label : Graph → String
  | .mk _ _ l _ _ _ _ _ _ _ => l

def Graph.nodes : Graph → List Node
  | .mk _ _ _ ns _ _ _ _ _ _ => ns

def Graph.edges : Graph → List Edge
  | .mk _ _ _ _ es _ _ _ _ _ => es

def Graph.subgraphs : Graph → List Graph
  | .mk _ _ _ _ _ subs _ _ _ _ => subs

def Graph.clusters : Graph → List Graph
  | .mk _ _ _ _ _ _ clus _ _ _ => clus

def Graph.attributes : Graph → AttributeSet
  | .mk _ _ _ _ _ _ _ attrs _ _ => attrs

def Graph.defaultNodeAttributes : Graph → AttributeSet
  | .mk _ _ _ _ _ _ _ _ dna _ => dna

def Graph.defaultEdgeAttributes : Graph → AttributeSet
  | .mk _ _ _ _ _ _ _ _ _ dea => dea

/-- Replace the scope's own attribute set (the mutation performed by
Cluster::Print's label injection). -/
def Graph.withAttributes : Graph → AttributeSet → Graph
  | .mk d i l ns es subs clus _ dna dea, a => .mk d i l ns es subs clus a dna dea

/-- Node::ToString (src/AttributeSet.cpp lines 12-37), the node-statement
printer that the cited generation's loops invoke as the node's Print:
write the identifier; if the label is non-empty add a Custom "label"
attribute to the node's own collection (mutating the node); then an
unconditional "[", the attribute list, "]", and ";" with a newline. -/
def Node.Print (n : Node) : String × Node :=
  let n1 := if n.label ≠ "" then
      { n with attributes := AddCustomAttribute n.attributes "label" n.label }
    else n
  (n.id ++ "[" ++ AttributeSet.Print n1.attributes ++ "]" ++ ";\n", n1)

/-- Edge::Print (src/lib/Edge.cpp lines 13-23): source id, edge operator
("->" when the document is directed, "--" otherwise), destination id,
then " [" attribute list "]" only when the collection is non-empty, then
";" and a newline.  The _label field is never consulted: edges get no
label injection in this generation. -/
def Edge.Print (isDirected : Bool) (e : Edge) : String :=
  e.srcId ++ (if isDirected then "->" else "--") ++ e.dstId ++
    (if !(AttributeSet.Empty e.attributes) then
      " [" ++ AttributeSet.Print e.attributes ++ "]"
    else "") ++ ";\n"

mutual

/-- Subgraph::Print (src/lib/Subgraph.cpp lines 5-21): "subgraph <id> {",
the scope's own attribute statement when non-empty (the attribute list
printed bare, then ";"), the PrintNECS body, "}".  Indentation dropped. -/
def SubgraphPrint (g : Graph) : String × Graph :=
  ("subgraph " ++ g.id ++ " \x7b\n" ++
    (if !(AttributeSet.Empty g.attributes) then
      AttributeSet.Print g.attributes ++ ";\n"
    else "") ++ (PrintNECS g).1 ++ "\x7d\n", (PrintNECS g).2)
termination_by (sizeOf g, 1)

/-- Cluster::Print (src/lib/Cluster.cpp lines 5-24): like Subgraph::Print,
except that first, when _label is non-empty, a Custom "label" attribute
is added to the cluster's own attribute set (mutating the cluster), and
the possibly-extended set is what gets printed.  In the source the
mutation happens on `this` before PrintNECS runs; PrintNECS never reads
_attributes, so the embedding threads the extended set directly into the
printed statement and into the returned graph. -/
def ClusterPrint (g : Graph) : String × Graph :=
  let attrs1 := if g.label ≠ "" then
      AddCustomAttribute g.attributes "label" g.label
    else g.attributes
  ("subgraph " ++ g.id ++ " \x7b\n" ++
    (if !(AttributeSet.Empty attrs1) then AttributeSet.Print attrs1 ++ ";\n"
     else "") ++ (PrintNECS g).1 ++ "\x7d\n",
   ((PrintNECS g).2).withAttributes attrs1)
termination_by (sizeOf g, 1)

/-- Graph::PrintNECS (src/lib/DotWriter.h lines 150-191): the default
node attribute statement ("node [...];") when non-empty, then the default
edge attribute statement ("edge [...];") when non-empty, then every owned
Node in insertion order, then every owned Edge in insertion order (passing
IsDigraph()), then every owned Subgraph recursively, then every owned
Cluster recursively.  Children whose Print mutates them are rebuilt from
the printed results. -/
def PrintNECS : Graph → String × Graph
  | .mk d i l ns es subs clus attrs dna dea =>
    let nodeResults := ns.map Node.Print
    let subResults := subs.attach.map (fun c => SubgraphPrint c.1)
    let cluResults := clus.attach.map (fun c => ClusterPrint c.1)
    ((if !(AttributeSet.Empty dna) then
        "node [" ++ AttributeSet.Print dna ++ "];"
      else "") ++
     (if !(AttributeSet.Empty dea) then
        "edge [" ++ AttributeSet.Print dea ++ "];"
      else "") ++
     String.join (nodeResults.map Prod.fst) ++
     String.join (es.map (Edge.Print d)) ++
     String.join (subResults.map Prod.fst) ++
     String.join (cluResults.map Prod.fst),
     .mk d i l (nodeResults.map Prod.snd) es (subResults.map Prod.snd)
       (cluResults.map Prod.snd) attrs dna dea)
termination_by g => (sizeOf g, 0)
decreasing_by
  · have h1 := List.sizeOf_lt_of_mem c.2
    simp only [Graph.mk.sizeOf_spec, Prod.lex_def]
    omega
  · have h1 := List.sizeOf_lt_of_mem c.2
    simp only [Graph.mk.sizeOf_spec, Prod.lex_def]
    omega

end

/-- RootGraph::Print (src/lib/RootGraph.cpp lines 30-43): the document
header "digraph <id> {" (or "graph <id> {" when undirected), the root's
own attribute statement "graph [...];" when non-empty, the PrintNECS
body, "}". -/
def RootPrint (g : Graph) : String × Graph :=
  ((if g.isDigraph then "digraph " else "graph ") ++ g.id ++ " \x7b\n" ++
    (if !(AttributeSet.Empty g.attributes) then
      "graph [" ++ AttributeSet.Print g.attributes ++ "];\n"
    else "") ++ (PrintNECS g).1 ++ "\x7d\n", (PrintNECS g).2)

/-- The C2 scenario document: a directed root with id "G", node A with no
label and no attributes, node B with label b"2, and one attribute-less
edge from A to B. -/
def c2Doc : Graph :=
  .mk true "G" "" [⟨"A", "", []⟩, ⟨"B", "b\"2", []⟩] [⟨"A", "B", "", []⟩]
    [] [] [] [] []

/-- Counterexample to C2 as stated: the statement printed for node A is
"A[];" — Node::ToString always writes the bracket pair — so "A;" occurs
nowhere in the render, and the label's embedded quote is not escaped, so
the claimed fragment b\"2 (backslash before the quote) occurs nowhere
either. -/
theorem render_scenario_mismatch :
    (RootPrint c2Doc).1
      ≠ "digraph G \x7b\nA;\nB[label=\"b\\\"2\"];\nA->B;\n\x7d\n" ∧
    ¬ ("A;".data <:+: (RootPrint c2Doc).1.data) ∧
    ¬ ("b\\\"2".data <:+: (RootPrint c2Doc).1.data) := by
  refine ⟨?_, ?_, ?_⟩ <;>
    · simp only [RootPrint, PrintNECS, Node.Print, Edge.Print, c2Doc,
        AttributeSet.Print, Attribute.Print, AttributeSet.Empty,
        AddCustomAttribute, Graph.isDigraph, Graph.id, Graph.attributes,
        List.attach_nil, List.map_nil, List.map_cons, String.join]
      decide

/-- C2 (amended): the scenario document renders as the statements
"digraph G {", "A[];", "B[label="b"2"];", "A->B;", "}" in that order —
node A gets an empty bracket pair because Node::ToString prints the
brackets unconditionally, and the quote inside B's label is written
verbatim because nothing sanitizes values captured by
AddCustomAttribute. -/
theorem render_scenario_actual :
    (RootPrint c2Doc).1
      = "digraph G \x7b\nA[];\nB[label=\"b\"2\"];\nA->B;\n\x7d\n" := by
  simp only [RootPrint, PrintNECS, Node.Print, Edge.Print, c2Doc,
    AttributeSet.Print, Attribute.Print, AttributeSet.Empty,
    AddCustomAttribute, Graph.isDigraph, Graph.id, Graph.attributes,
    List.attach_nil, List.map_nil, List.map_cons, String.join]
  decide

/-! Components of the fixed-order decomposition of one render pass
(claim C3).  Each is defined independently of the printer bodies. -/

/-- The root's "graph [...];" statement, empty when the collection is. -/
def rootAttrStatement (g : Graph) : String :=
  if !(AttributeSet.Empty g.attributes) then
    "graph [" ++ AttributeSet.Print g.attributes ++ "];\n"
  else ""

/-- A subgraph scope's own attribute statement (printed bare). -/
def scopeAttrStatement (g : Graph) : String :=
  if !(AttributeSet.Empty g.attributes) then
    AttributeSet.Print g.attributes ++ ";\n"
  else ""

/-- A cluster scope's own attribute statement, over the set extended by
the injected label. -/
def clusterAttrStatement (g : Graph) : String :=
  let attrs1 := if g.label ≠ "" then
      AddCustomAttribute g.attributes "label" g.label
    else g.attributes
  if !(AttributeSet.Empty attrs1) then AttributeSet.Print attrs1 ++ ";\n"
  else ""

/-- The scope's default-node attribute statement. -/
def defaultNodeStatement (g : Graph) : String :=
  if !(AttributeSet.Empty g.defaultNodeAttributes) then
    "node [" ++ AttributeSet.Print g.defaultNodeAttributes ++ "];"
  else ""

/-- The scope's default-edge attribute statement. -/
def defaultEdgeStatement (g : Graph) : String :=
  if !(AttributeSet.Empty g.defaultEdgeAttributes) then
    "edge [" ++ AttributeSet.Print g.defaultEdgeAttributes ++ "];"
  else ""

/-- The owned nodes' statements, in insertion order. -/
def nodeStatements (g : Graph) : String :=
  String.join (g.nodes.map (fun n => (Node.Print n).1))

/-- The owned edges' statements, in insertion order. -/
def edgeStatements (g : Graph) : String :=
  String.join (g.edges.map (Edge.Print g.isDigraph))

/-- The owned subgraphs' renders, in insertion order. -/
def subgraphRenders (g : Graph) : String :=
  String.join (g.subgraphs.map (fun c => (SubgraphPrint c).1))

/-- The owned clusters' renders, in insertion order. -/
def clusterRenders (g : Graph) : String :=
  String.join (g.clusters.map (fun c => (ClusterPrint c).1))

theorem printNECS_fst (g : Graph) :
    (PrintNECS g).1 = defaultNodeStatement g ++ defaultEdgeStatement g ++
      nodeStatements g ++ edgeStatements g ++ subgraphRenders g ++
      clusterRenders g := by
  obtain ⟨d, i, l, ns, es, subs, clus, attrs, dna, dea⟩ := g
  simp only [PrintNECS, defaultNodeStatement, defaultEdgeStatement,
    nodeStatements, edgeStatements, subgraphRenders, clusterRenders,
    Graph.nodes, Graph.edges, Graph.subgraphs, Graph.clusters,
    Graph.isDigraph, Graph.defaultNodeAttributes, Graph.defaultEdgeAttributes,
    List.map_map, Function.comp, List.attach_map_val]
  simp only [Function.comp_def]

/-- C3: one recursive render pass emits every scope in the fixed order —
header, then (if non-empty) the scope's own attribute statement, then
(if non-empty) the default-node attribute statement, then (if non-empty)
the default-edge attribute statement, then each owned Node in insertion
order, then each owned Edge in insertion order, then each owned Subgraph
recursively, then each owned Cluster recursively, then the closing brace.
In particular the default node/edge attribute statements precede every
individual node and edge statement of the same scope. -/
theorem render_emits_fixed_order (g : Graph) :
    (RootPrint g).1
      = (if g.isDigraph then "digraph " else "graph ") ++ g.id ++ " \x7b\n"
        ++ rootAttrStatement g ++ defaultNodeStatement g
        ++ defaultEdgeStatement g ++ nodeStatements g ++ edgeStatements g
        ++ subgraphRenders g ++ clusterRenders g ++ "\x7d\n" ∧
    (SubgraphPrint g).1
      = "subgraph " ++ g.id ++ " \x7b\n"
        ++ scopeAttrStatement g ++ defaultNodeStatement g
        ++ defaultEdgeStatement g ++ nodeStatements g ++ edgeStatements g
        ++ subgraphRenders g ++ clusterRenders g ++ "\x7d\n" ∧
    (ClusterPrint g).1
      = "subgraph " ++ g.id ++ " \x7b\n"
        ++ clusterAttrStatement g ++ defaultNodeStatement g
        ++ defaultEdgeStatement g ++ nodeStatements g ++ edgeStatements g
        ++ subgraphRenders g ++ clusterRenders g ++ "\x7d\n" := by
  refine ⟨?_, ?_, ?_⟩
  · rw [RootPrint]
    simp only [rootAttrStatement, printNECS_fst, String.append_assoc]
  · rw [SubgraphPrint]
    simp only [scopeAttrStatement, printNECS_fst, String.append_assoc]
  · rw [ClusterPrint]
    simp only [clusterAttrStatement, printNECS_fst, String.append_assoc]

/-- Counterexample to C5 as stated: Edge::Print never injects the label.
An edge with the non-empty label "lbl" and an empty attribute collection
prints as a bare edge statement: no "label" entry — indeed no trace of
the label — appears. -/
theorem edge_label_not_printed :
    Edge.Print true ⟨"A", "B", "lbl", []⟩ = "A->B;\n" ∧
    ¬ ("label".data <:+: (Edge.Print true ⟨"A", "B", "lbl", []⟩).data) ∧
    ¬ ("lbl".data <:+: (Edge.Print true ⟨"A", "B", "lbl", []⟩).data) := by
  refine ⟨by decide, by decide, by decide⟩

theorem Graph.attributes_withAttributes (g : Graph) (a : AttributeSet) :
    (g.withAttributes a).attributes = a := by
  obtain ⟨d, i, l, ns, es, subs, clus, attrs, dna, dea⟩ := g
  rfl

/-- C5 (amended): for every Node and Cluster with a non-empty label, a
synthetic Custom attribute named "label" carrying the current label value
is appended to the entity's attribute collection at print time — not when
the label is set — so setting the label twice before a print produces
exactly one injected label entry carrying the latest value.  Edge::Print
performs no such injection: an Edge's label is never printed. -/
theorem label_injected_at_print_time :
    (∀ (n : Node) (l : String), (Node.SetLabel n l).attributes = n.attributes) ∧
    (∀ (e : Edge) (l : String), (Edge.SetLabel e l).attributes = e.attributes) ∧
    (∀ (n : Node) (l1 l2 : String), l2 ≠ "" →
      (Node.Print (Node.SetLabel (Node.SetLabel n l1) l2)).2.attributes
        = n.attributes ++ [Attribute.custom "label" l2]) ∧
    (∀ g : Graph, g.label ≠ "" →
      (ClusterPrint g).2.attributes
        = g.attributes ++ [Attribute.custom "label" g.label]) ∧
    (∀ (d : Bool) (e : Edge), e.attributes = [] →
      Edge.Print d e
        = e.srcId ++ (if d then "->" else "--") ++ e.dstId ++ ";\n") := by
  refine ⟨fun n l => rfl, fun e l => rfl, ?_, ?_, ?_⟩
  · intro n l1 l2 h
    simp [Node.Print, Node.SetLabel, AddCustomAttribute, h]
  · intro g h
    rw [ClusterPrint]
    simp only [h, if_pos, ite_not]
    rw [Graph.attributes_withAttributes]
    simp [AddCustomAttribute, h]
  · intro d e h
    simp [Edge.Print, AttributeSet.Empty, h, String.append_assoc]

/-- Witness for C5 (amended): a node whose label is set twice carries one
injected entry with the latest value, and a labelled edge prints bare. -/
theorem label_injected_at_print_time_witness :
    (Node.Print (Node.SetLabel (Node.SetLabel ⟨"N", "", []⟩ "first") "second")).2.attributes
      = ([] : AttributeSet) ++ [Attribute.custom "label" "second"] ∧
    Edge.Print true ⟨"A", "B", "lbl", []⟩
      = "A" ++ (if true then "->" else "--") ++ "B" ++ ";\n" :=
  ⟨label_injected_at_print_time.2.2.1 ⟨"N", "", []⟩ "first" "second" (by decide),
   label_injected_at_print_time.2.2.2.2 true ⟨"A", "B", "lbl", []⟩ rfl⟩

/-- Graph::RemoveNode (src/lib/DotWriter.h lines 117-126): find the node
in the owned sequence, erase it, destroy it.  The identifier authority is
never consulted, so the removed node's identifier stays registered. -/
def Graph.RemoveNode : Graph → Node → Graph
  | .mk d i l ns es subs clus attrs dna dea, n =>
    .mk d i l (ns.erase n) es subs clus attrs dna dea

/-- A document: the root graph together with the identifier authority it
owns (class RootGraph, src/RootGraph.h lines 15-27). -/
structure RootDoc where
  graph : Graph
  idManager : IdManager

/-- Removing a node from the document root; the authority component is
carried over untouched, exactly as in the source. -/
def RootDoc.RemoveNode (r : RootDoc) (n : Node) : RootDoc :=
  ⟨r.graph.RemoveNode n, r.idManager⟩

/-- C9: removing a Node never removes its identifier from the authority's
uniqueness set — removal does not touch the authority at all, and the set
only grows under every identifier-producing operation — so a node
identifier auto-generated after the removal differs from the removed
node's registered identifier. -/
theorem no_id_reuse_after_removal :
    (∀ (r : RootDoc) (n : Node), (r.RemoveNode n).idManager = r.idManager) ∧
    (∀ (fuel : Nat) (m m' : IdManager) (op : IdOp) (s : String),
      runOp fuel m op = some (s, m') →
      ∀ x ∈ m.existingIds, x ∈ m'.existingIds) ∧
    (∀ (r : RootDoc) (n : Node) (fuel : Nat) (s : String) (m' : IdManager),
      n.id ∈ r.idManager.existingIds →
      GetNodeId fuel (r.RemoveNode n).idManager = some (s, m') →
      s ≠ n.id) := by
  refine ⟨fun r n => rfl, ?_, ?_⟩
  · intro fuel m m' op s h
    exact (runOp_fresh_mem_mono h).2.2
  · intro r n fuel s m' hmem h
    obtain ⟨hfresh, -, -⟩ := GetNodeId_fresh_mem_mono h
    intro heq
    exact hfresh (heq ▸ hmem)

/-- Witness for C9: a document whose authority has "Node0" registered and
node counter 1; after removing the node with id "Node0", the next
auto-generated identifier is "Node1", which differs from "Node0". -/
theorem no_id_reuse_after_removal_witness :
    ((RootDoc.mk (.mk true "G" "" [⟨"Node0", "", []⟩] [] [] [] [] [] [])
        ⟨1, 0, 0, ["Node0"]⟩).RemoveNode ⟨"Node0", "", []⟩).idManager
      = (RootDoc.mk (.mk true "G" "" [⟨"Node0", "", []⟩] [] [] [] [] [] [])
        ⟨1, 0, 0, ["Node0"]⟩).idManager ∧
    ("Node1" : String) ≠ "Node0" :=
  ⟨no_id_reuse_after_removal.1
      (RootDoc.mk (.mk true "G" "" [⟨"Node0", "", []⟩] [] [] [] [] [] [])
        ⟨1, 0, 0, ["Node0"]⟩) ⟨"Node0", "", []⟩,
   no_id_reuse_after_removal.2.2
      (RootDoc.mk (.mk true "G" "" [⟨"Node0", "", []⟩] [] [] [] [] [] [])
        ⟨1, 0, 0, ["Node0"]⟩) ⟨"Node0", "", []⟩ 3 "Node1"
      ⟨2, 0, 0, ["Node1", "Node0"]⟩ (by decide) (by decide)⟩

/-- No Node anywhere in the scope tree has a non-empty label, and no
Cluster anywhere has a non-empty label: exactly the condition under which
no label injection can occur while printing. -/
def noLabels : Graph → Bool
  | .mk _ _ _ ns _ subs clus _ _ _ =>
    ns.all (fun n => n.label == "") &&
    (subs.attach.all fun c => noLabels c.1) &&
    (clus.attach.all fun c => (Graph.label c.1 == "") && noLabels c.1)
termination_by g => sizeOf g
decreasing_by
  · have h1 := List.sizeOf_lt_of_mem c.2
    simp only [Graph.mk.sizeOf_spec]
    omega
  · have h1 := List.sizeOf_lt_of_mem c.2
    simp only [Graph.mk.sizeOf_spec]
    omega

theorem Node.Print_snd_of_label_empty {n : Node} (h : n.label = "") :
    (Node.Print n).2 = n := by
  simp [Node.Print, h]

theorem print_pure_aux : ∀ (N : Nat) (g : Graph), sizeOf g ≤ N →
    noLabels g = true →
    (PrintNECS g).2 = g ∧ (SubgraphPrint g).2 = g ∧
      (g.label = "" → (ClusterPrint g).2 = g) := by
  intro N
  induction N with
  | zero =>
    intro g hsz _
    exfalso
    obtain ⟨d, i, l, ns, es, subs, clus, attrs, dna, dea⟩ := g
    simp only [Graph.mk.sizeOf_spec] at hsz
    omega
  | succ N ih =>
    intro g hsz hlab
    obtain ⟨d, i, l, ns, es, subs, clus, attrs, dna, dea⟩ := g
    rw [noLabels] at hlab
    simp only [Bool.and_eq_true, List.all_eq_true] at hlab
    obtain ⟨⟨hns, hsubs⟩, hclus⟩ := hlab
    simp only [Graph.mk.sizeOf_spec] at hsz
    have hsub : ∀ c ∈ subs, sizeOf c ≤ N := by
      intro c hc
      have h1 := List.sizeOf_lt_of_mem hc
      omega
    have hclu : ∀ c ∈ clus, sizeOf c ≤ N := by
      intro c hc
      have h1 := List.sizeOf_lt_of_mem hc
      omega
    have e1 : (ns.map Node.Print).map Prod.snd = ns := by
      rw [List.map_map]
      simp only [Function.comp_def]
      calc ns.map (fun n => (Node.Print n).2)
            = ns.map (fun n => n) := by
            apply List.map_congr_left
            intro n hn
            exact Node.Print_snd_of_label_empty (eq_of_beq (hns n hn))
        _ = ns := by simp
    have e2 : ((subs.attach.map fun c => SubgraphPrint c.1).map Prod.snd)
        = subs := by
      rw [List.map_map]
      simp only [Function.comp_def]
      calc subs.attach.map (fun c => (SubgraphPrint c.1).2)
            = subs.attach.map (fun c => c.1) := by
            apply List.map_congr_left
            intro c _
            exact (ih c.1 (hsub c.1 c.2) (hsubs c (List.mem_attach _ _))).2.1
        _ = subs := by
            simp
    have e3 : ((clus.attach.map fun c => ClusterPrint c.1).map Prod.snd)
        = clus := by
      rw [List.map_map]
      simp only [Function.comp_def]
      calc clus.attach.map (fun c => (ClusterPrint c.1).2)
            = clus.attach.map (fun c => c.1) := by
            apply List.map_congr_left
            intro c _
            obtain ⟨hl, hnl⟩ := hclus c (List.mem_attach _ _)
            exact (ih c.1 (hclu c.1 c.2) hnl).2.2 (eq_of_beq hl)
        _ = clus := by
            simp
    have hnecs :
        (PrintNECS (.mk d i l ns es subs clus attrs dna dea)).2
          = .mk d i l ns es subs clus attrs dna dea := by
      rw [PrintNECS]
      dsimp only
      rw [e1, e2, e3]
    refine ⟨hnecs, ?_, ?_⟩
    · rw [SubgraphPrint]
      dsimp only
      exact hnecs
    · intro hl
      rw [ClusterPrint]
      dsimp only
      rw [hnecs]
      simp only [Graph.label] at hl
      simp [Graph.label, Graph.attributes, Graph.withAttributes, hl]

/-- Counterexample to C10 as stated: rendering is not a read-only
traversal.  A document with one node labelled "x" has that node's
attribute collection extended by the injected label during the render, so
the model changes, and a second render of the changed model shows two
label entries where the first showed one. -/
theorem render_mutates_labelled_model :
    ((RootPrint (.mk true "G" "" [⟨"B", "x", []⟩] [] [] [] [] [] [])).2).nodes
      ≠ (Graph.mk true "G" "" [⟨"B", "x", []⟩] [] [] [] [] [] []).nodes ∧
    (RootPrint ((RootPrint
        (.mk true "G" "" [⟨"B", "x", []⟩] [] [] [] [] [] [])).2)).1
      ≠ (RootPrint (.mk true "G" "" [⟨"B", "x", []⟩] [] [] [] [] [] [])).1 := by
  constructor
  · simp only [RootPrint, PrintNECS, Node.Print, AddCustomAttribute,
      Graph.nodes, List.attach_nil, List.map_nil, List.map_cons]
    decide
  · simp only [RootPrint, PrintNECS, Node.Print, Edge.Print,
      AttributeSet.Print, Attribute.Print, AttributeSet.Empty,
      AddCustomAttribute, Graph.isDigraph, Graph.id, Graph.attributes,
      Graph.nodes, Graph.edges, Graph.subgraphs, Graph.clusters,
      Graph.defaultNodeAttributes, Graph.defaultEdgeAttributes,
      List.attach_nil, List.map_nil, List.map_cons, String.join]
    decide

/-- C10 (amended): rendering is a read-only traversal for every document
in which no node and no cluster carries a non-empty label: the model is
unchanged by the render, and rendering twice produces identical output.
(With non-empty labels the injection of C5 mutates the printed entity's
attribute collection, as the counterexample shows.) -/
theorem render_read_only_without_labels (g : Graph)
    (h : noLabels g = true) :
    (RootPrint g).2 = g ∧
      (RootPrint ((RootPrint g).2)).1 = (RootPrint g).1 := by
  have h1 : (PrintNECS g).2 = g := (print_pure_aux (sizeOf g) g le_rfl h).1
  have h2 : (RootPrint g).2 = g := by
    rw [RootPrint]
    exact h1
  exact ⟨h2, by rw [h2]⟩

/-- Witness for C10 (amended): a label-free document with one node, one
edge and one (label-free) cluster renders without changing the model. -/
theorem render_read_only_without_labels_witness :
    (RootPrint (.mk true "G" "" [⟨"A", "", []⟩] [⟨"A", "A", "", []⟩]
        [] [.mk true "cluster_0" "" [] [] [] [] [] [] []] [] [] [])).2
      = .mk true "G" "" [⟨"A", "", []⟩] [⟨"A", "A", "", []⟩]
        [] [.mk true "cluster_0" "" [] [] [] [] [] [] []] [] [] [] ∧
    (RootPrint ((RootPrint (.mk true "G" "" [⟨"A", "", []⟩]
        [⟨"A", "A", "", []⟩]
        [] [.mk true "cluster_0" "" [] [] [] [] [] [] []] [] [] [])).2)).1
      = (RootPrint (.mk true "G" "" [⟨"A", "", []⟩] [⟨"A", "A", "", []⟩]
        [] [.mk true "cluster_0" "" [] [] [] [] [] [] []] [] [] [])).1 :=
  render_read_only_without_labels
    (.mk true "G" "" [⟨"A", "", []⟩] [⟨"A", "A", "", []⟩]
      [] [.mk true "cluster_0" "" [] [] [] [] [] [] []] [] [] [])
    (by simp [noLabels, Graph.label])

/-- Append a freshly constructed child cluster to the owned sequence (the
`_clusters.push_back(cluster)` of Graph::AddCluster). -/
def Graph.appendCluster : Graph → Graph → Graph
  | .mk d i l ns es subs clus attrs dna dea, c =>
    .mk d i l ns es subs (clus ++ [c]) attrs dna dea

/-- Graph::AddCluster without an explicit id (src/lib/DotWriter.h lines
75-81): obtain an auto-generated cluster id from the shared authority and
append a new Cluster sharing the document's directedness.  Returns the
new cluster's identifier next to the updated document. -/
def RootDoc.AddCluster (fuel : Nat) (r : RootDoc) (label : String) :
    Option (RootDoc × String) :=
  match GetClusterId fuel r.idManager with
  | none => none
  | some (id, m1) =>
    some (⟨r.graph.appendCluster
        (.mk r.graph.isDigraph id label [] [] [] [] [] [] []), m1⟩, id)

/-- Graph::AddCluster with a user-supplied id (src/lib/DotWriter.h lines
83-87): the id is put through ValidateCustomClusterId first. -/
def RootDoc.AddClusterWithId (fuel : Nat) (r : RootDoc)
    (label customId : String) : Option (RootDoc × String) :=
  match ValidateCustomClusterId fuel r.idManager customId with
  | none => none
  | some (id, m1) =>
    some (⟨r.graph.appendCluster
        (.mk r.graph.isDigraph id label [] [] [] [] [] [] []), m1⟩, id)

/-- C8: every Cluster identifier begins with the reserved "cluster" stem:
addCluster() with no explicit id yields an auto-generated
"cluster_<n>"-shaped identifier; addCluster() with a user-supplied id
lacking the stem yields that id with "cluster" prepended (plus a
collision suffix when needed); and a user-supplied id that already begins
with the stem is handed to plain custom-id validation unchanged, so the
stem is never added a second time. -/
theorem cluster_ids_carry_stem :
    (∀ (fuel : Nat) (r r1 : RootDoc) (label id : String),
        RootDoc.AddCluster fuel r label = some (r1, id) →
        ∃ t, id = "cluster" ++ t) ∧
    (∀ (fuel : Nat) (r r1 : RootDoc) (label customId id : String),
        RootDoc.AddClusterWithId fuel r label customId = some (r1, id) →
        ∃ t, id = "cluster" ++ t) ∧
    (∀ (fuel : Nat) (m : IdManager) (s : String), hasClusterStem s = true →
        ValidateCustomClusterId fuel m s = ValidateCustomId fuel m s) := by
  refine ⟨?_, ?_, ?_⟩
  · intro fuel r r1 label id h
    rw [RootDoc.AddCluster] at h
    cases hg : GetClusterId fuel r.idManager with
    | none => rw [hg] at h; simp at h
    | some p =>
      obtain ⟨id0, m1⟩ := p
      rw [hg] at h
      simp only [Option.some.injEq, Prod.mk.injEq] at h
      obtain ⟨-, h2⟩ := h
      subst h2
      obtain ⟨t, ht⟩ := GetClusterId_stem hg
      refine ⟨"_" ++ t, ?_⟩
      rw [ht, ← String.append_assoc]
      rfl
  · intro fuel r r1 label customId id h
    rw [RootDoc.AddClusterWithId] at h
    cases hg : ValidateCustomClusterId fuel r.idManager customId with
    | none => rw [hg] at h; simp at h
    | some p =>
      obtain ⟨id0, m1⟩ := p
      rw [hg] at h
      simp only [Option.some.injEq, Prod.mk.injEq] at h
      obtain ⟨-, h2⟩ := h
      subst h2
      unfold ValidateCustomClusterId at hg
      by_cases hstem : hasClusterStem customId
      · rw [if_pos hstem] at hg
        obtain ⟨u, hu⟩ := hasClusterStem_decomp hstem
        obtain ⟨t, ht⟩ := ValidateCustomId_app hg
        exact ⟨u ++ t, by rw [ht, hu, String.append_assoc]⟩
      · rw [if_neg hstem] at hg
        obtain ⟨t, ht⟩ := ValidateCustomId_app hg
        exact ⟨customId ++ t, by rw [ht, String.append_assoc]⟩
  · intro fuel m s h
    unfold ValidateCustomClusterId
    rw [if_pos h]

/-- Witness for C8: on a fresh document, addCluster() yields "cluster_0",
addCluster with custom id "foo" yields "clusterfoo", and the
already-stemmed id "clusterX" goes through plain validation unchanged. -/
theorem cluster_ids_carry_stem_witness :
    (∃ t, "cluster_0" = "cluster" ++ t) ∧
    (∃ t, "clusterfoo" = "cluster" ++ t) ∧
    ValidateCustomClusterId 3 IdManager.init "clusterX"
      = ValidateCustomId 3 IdManager.init "clusterX" :=
  ⟨cluster_ids_carry_stem.1 3
      ⟨.mk true "G" "" [] [] [] [] [] [] [], IdManager.init⟩
      ⟨.mk true "G" "" [] [] []
          [.mk true "cluster_0" "" [] [] [] [] [] [] []] [] [] [],
        ⟨0, 1, 0, ["cluster_0"]⟩⟩
      "" "cluster_0" (by rfl),
   cluster_ids_carry_stem.2.1 3
      ⟨.mk true "G" "" [] [] [] [] [] [] [], IdManager.init⟩
      ⟨.mk true "G" "" [] [] []
          [.mk true "clusterfoo" "lab" [] [] [] [] [] [] []] [] [] [],
        ⟨0, 0, 0, ["clusterfoo"]⟩⟩
      "lab" "foo" "clusterfoo" (by rfl),
   cluster_ids_carry_stem.2.2 3 IdManager.init "clusterX" (by decide)⟩

end DotWriter
